import Mathlib

/-!
Shallow embedding of `etl_i2b2/eventlog.py` (grouse repository): the
nested-step `EventLogger`, the `TextFilter`, the `DebounceHandler`
(debounce log sink) and the deterministic `MockIO` test clock.

Modelling conventions:
* Timestamps are whole seconds (`Int`) measured from 2000-01-01 00:00:00;
  the deterministic test clock only ever produces whole seconds.
  `eta` multiplies a duration by a ratio, so it returns a rational (`ℚ`);
  Python float/timedelta arithmetic is modelled by exact rationals.
* Python exceptions are modelled by `Except PyErr`; the claims only
  distinguish `IndexError` (indexing the empty step stack),
  `ZeroDivisionError` (from `1 / (pct / 100)` at `pct = 0`), and an
  arbitrary application exception raised inside a step body.
* The clock is a field `clock : Nat → Int` of the logger state together
  with a call counter: call number `n` returns `clock n`, matching the
  stateful `self._clock()` protocol.  `MockClock.stream` realises the
  `MockIO` clock as such a function.
* `%`-interpolation of `argobj` into message templates is not modelled
  (no claim inspects interpolated text); a record's `msg` carries the
  template text plus the `'...'` / `'.'` suffix the code appends.
* A `threading.Timer` is observable only through whether a live
  (scheduled, not cancelled, not fired) timer is pending, so the
  `DebounceHandler` state keeps `timerActive : Bool`; `cancel` on an
  already dead timer is a no-op in Python, which the boolean absorbs.
-/

/-- `logging.INFO` -/
def INFO : Int := 20

/-- `logging.WARN` -/
def WARN : Int := 30

/-- `logging.ERROR` -/
def ERROR : Int := 40

/-- The Python exceptions the claims distinguish. -/
inductive PyErr where
  | indexError : PyErr
  | zeroDivisionError : PyErr
  | appError : PyErr
deriving DecidableEq, Repr

/-- One emitted log record: severity (`levelno`), rendered message,
breadcrumb (`step` list of sequence numbers), `t_step` seconds,
the `do` tag (begin/end) and the `elapsed` triple
`(start, duration?, micros?)`. -/
structure LogRec where
  levelno : Int
  msg : String
  stepIxs : List Nat
  tStep : Int
  doTag : String
  elStart : Int
  elDur : Option Int
  elMs : Option Int
deriving DecidableEq, Repr

/-- State of `MockIO`: `_now` (seconds) and `_delta`. -/
structure MockClock where
  now : Int
  delta : Int
deriving DecidableEq, Repr

/-- `MockIO.clock`: advance `_now` by `_delta`, increment `_delta`,
return the new `_now`. -/
def MockClock.clock (m : MockClock) : Int × MockClock :=
  let n := m.now + m.delta
  (n, ⟨n, m.delta + 1⟩)

/-- The value returned by the `n`-th (0-based) call of `MockIO.clock`
started from state `m`. -/
def MockClock.stream (m : MockClock) : Nat → Int
  | 0 => (m.clock).1
  | n + 1 => ((m.clock).2).stream n

/-- `MockIO()` default state: 2000-01-01 12:30:00 (= 45000 s past
midnight), first increment 1 s. -/
def mockIOClock : Nat → Int := MockClock.stream ⟨45000, 1⟩

/-- State of one `EventLogger` instance: the injected clock (as the
stream of its successive return values plus a call counter), `_seq`,
`_step` (innermost frame last, as the Python list), and the records
emitted so far. -/
structure EvState where
  clock : Nat → Int
  calls : Nat
  seq : Nat
  stepStack : List (Nat × Int)
  records : List LogRec

/-- `EventLogger.__init__`: empty stack, `_seq = 0`, no records. -/
def EventLogger.init (clock : Nat → Int) : EvState :=
  ⟨clock, 0, 0, [], []⟩

/-- Entering `EventLogger.step`: read the clock (`checkpoint`), bump
`_seq`, push the frame, emit the begin record (INFO, `elapsed =
(checkpoint, None, None)`, `t_step = checkpoint - _step[0].started`).
Returns the new state together with the generator locals the exit path
uses: `checkpoint` and `step_ixs`. -/
def EventLogger.stepEnter (msg : String) (s : EvState) :
    EvState × Int × List Nat :=
  let checkpoint := s.clock s.calls
  let seq := s.seq + 1
  let stack := s.stepStack ++ [(seq, checkpoint)]
  let ixs := stack.map Prod.fst
  let tStep := checkpoint - (stack.headD (seq, checkpoint)).2
  let beginRec : LogRec :=
    ⟨INFO, msg ++ "...", ixs, tStep, "begin", checkpoint, none, none⟩
  (⟨s.clock, s.calls + 1, seq, stack, s.records ++ [beginRec]⟩,
   checkpoint, ixs)

/-- `EventLogger.elapsed(then=None)`: start is the given reference or
`_step[-1][1]` (IndexError on an empty stack); reads the clock; returns
`(start, duration, duration * 10^6)`. -/
def EventLogger.elapsedOp (thenT : Option Int) (s : EvState) :
    Except PyErr ((Int × Int × Int) × EvState) :=
  match thenT with
  | some start =>
    let nowT := s.clock s.calls
    .ok ((start, nowT - start, (nowT - start) * 1000000),
         ⟨s.clock, s.calls + 1, s.seq, s.stepStack, s.records⟩)
  | none =>
    match s.stepStack.getLast? with
    | none => .error .indexError
    | some (_, start) =>
      let nowT := s.clock s.calls
      .ok ((start, nowT - start, (nowT - start) * 1000000),
           ⟨s.clock, s.calls + 1, s.seq, s.stepStack, s.records⟩)

/-- `EventLogger.eta(pct)`: `t0 = _step[0][1]` (IndexError on an empty
stack), `elapsed = clock() - t0`, result `t0 + elapsed * (1 / (pct /
100))` (ZeroDivisionError when `pct / 100 = 0`).  The clock is read
before the division, as in the source. -/
def EventLogger.eta (pct : ℚ) (s : EvState) :
    Except PyErr (ℚ × EvState) :=
  match s.stepStack.head? with
  | none => .error .indexError
  | some (_, t0) =>
    let nowT := s.clock s.calls
    let s1 : EvState := ⟨s.clock, s.calls + 1, s.seq, s.stepStack, s.records⟩
    if pct / 100 = 0 then .error .zeroDivisionError
    else .ok ((t0 : ℚ) + ((nowT : ℚ) - (t0 : ℚ)) * (1 / (pct / 100)), s1)

/-- The completion record the `finally` block of `EventLogger.step`
emits: severity `outcome`, joined message parts plus `'.'`, the
entry-time breadcrumb, `t_step = elapsed[1]`, `do = 'end'`, `elapsed =
(checkpoint, duration, micros)`. -/
def EventLogger.mkEndRec (outcome : Int) (msg : String) (ixs : List Nat)
    (checkpoint dur : Int) : LogRec :=
  ⟨outcome, msg ++ ".", ixs, dur, "end", checkpoint, some dur,
   some (dur * 1000000)⟩

/-- The `finally` block of `EventLogger.step`: `elapsed(then=checkpoint)`
(one clock read), emit the completion record at severity `outcome`, pop
`_step`. -/
def EventLogger.stepExit (outcome : Int) (msg : String) (checkpoint : Int)
    (ixs : List Nat) (s : EvState) : EvState :=
  let nowT := s.clock s.calls
  let dur := nowT - checkpoint
  ⟨s.clock, s.calls + 1, s.seq, s.stepStack.dropLast,
   s.records ++ [EventLogger.mkEndRec outcome msg ixs checkpoint dur]⟩

/-- The whole `with event.step(msg, ...)` scope around a body.  The body
is a state transformer that may raise (`Option PyErr`); per the
`try/except/finally` in the source, a raising body makes the outcome
`ERROR`, the completion record is emitted and the frame popped on every
path, and the exception is re-raised unchanged. -/
def EventLogger.step (msg : String)
    (body : EvState → EvState × Option PyErr) (s : EvState) :
    EvState × Option PyErr :=
  let e := EventLogger.stepEnter msg s
  let r := body e.1
  let outcome := if r.2.isSome then ERROR else INFO
  (EventLogger.stepExit outcome msg e.2.1 e.2.2 r.1, r.2)

/-- An enter/exit trace on one logger instance (the context-manager
discipline only ever produces well-nested traces, but the definitions
are total on all traces; an unmatched exit is skipped since the
`with`-statement protocol cannot produce one). -/
inductive StepOp where
  | enter : String → StepOp
  | leave : StepOp

/-- Run a trace of enter/exit operations, collecting the sequence
numbers assigned at each enter, in order.  An exit replays the
`finally` block with the innermost frame's data, as the context
manager does for a well-nested trace. -/
def runOps : List StepOp → EvState → EvState × List Nat
  | [], s => (s, [])
  | StepOp.enter m :: rest, s =>
    let s1 := (EventLogger.stepEnter m s).1
    let r := runOps rest s1
    (r.1, s1.seq :: r.2)
  | StepOp.leave :: rest, s =>
    match s.stepStack.getLast? with
    | none => runOps rest s
    | some (_, ck) =>
      runOps rest
        (EventLogger.stepExit INFO "" ck (s.stepStack.map Prod.fst) s)

/-- Python `str.startswith`, at character level. -/
def pyStartsWith (s p : String) : Bool :=
  p.data.isPrefixOf s.data

/-- `TextFilter.filter` applied to a record: loop over the configured
`skips`, return `False` as soon as the rendered message starts with
one of them, else `True`. -/
def TextFilter.filter (skips : List String) (r : LogRec) : Bool :=
  match skips with
  | [] => true
  | skip :: rest =>
    if pyStartsWith r.msg skip then false else TextFilter.filter rest r

/-- `logging.Handler.handle` for a handler guarded by a `TextFilter`
(as `TextHandler.addFilter` installs it): the record is forwarded to
the sink only when the filter accepts it. -/
def handleFiltered (skips : List String) (r : LogRec)
    (sink : List LogRec) : List LogRec :=
  if TextFilter.filter skips r then sink ++ [r] else sink

/-- State of one `DebounceHandler`: configuration (`capacity`,
`interval`, `flushLevel`), the bounded FIFO `buffer` (oldest first),
whether a live timer is pending, and the records the `target` handler
has received, in order. -/
structure DebounceState where
  capacity : Nat
  interval : ℚ
  flushLevel : Int
  buffer : List LogRec
  timerActive : Bool
  handled : List LogRec
deriving DecidableEq, Repr

/-- `Queue.full()`: `qsize >= maxsize`, with `maxsize <= 0` meaning an
unbounded queue that is never full. -/
def DebounceHandler.bufFull (s : DebounceState) : Bool :=
  0 < s.capacity && s.capacity ≤ s.buffer.length

/-- The buffer-admission step of `DebounceHandler.emit`: if the queue is
full, `get` the oldest entry (evict), then `put` the new record. -/
def DebounceHandler.enqueue (r : LogRec) (s : DebounceState) : List LogRec :=
  (if DebounceHandler.bufFull s then s.buffer.tail else s.buffer) ++ [r]

/-- The drain loop of `DebounceHandler.flush`: `while not empty: get;
target.handle(record)`. -/
def DebounceHandler.drain (handled : List LogRec) :
    List LogRec → List LogRec
  | [] => handled
  | r :: rest => DebounceHandler.drain (handled ++ [r]) rest

/-- `DebounceHandler.flush`: forward every buffered record to the target
in FIFO order, leaving the buffer empty. -/
def DebounceHandler.flush (s : DebounceState) : DebounceState :=
  ⟨s.capacity, s.interval, s.flushLevel, [],
   s.timerActive, DebounceHandler.drain s.handled s.buffer⟩

/-- `DebounceHandler.start`: schedule a fresh one-shot timer of length
`interval` whose firing invokes flush. -/
def DebounceHandler.start (s : DebounceState) : DebounceState :=
  ⟨s.capacity, s.interval, s.flushLevel, s.buffer, true, s.handled⟩

/-- `DebounceHandler.stop`: cancel any pending timer (and clear
`_timer`), then flush. -/
def DebounceHandler.stop (s : DebounceState) : DebounceState :=
  DebounceHandler.flush
    ⟨s.capacity, s.interval, s.flushLevel, s.buffer, false, s.handled⟩

/-- `DebounceHandler.emit`: cancel any pending timer; evict-if-full and
append the record; then either flush synchronously (severity at or above
`flushLevel`) or schedule a fresh timer. -/
def DebounceHandler.emit (r : LogRec) (s : DebounceState) : DebounceState :=
  let s1 : DebounceState :=
    ⟨s.capacity, s.interval, s.flushLevel, DebounceHandler.enqueue r s,
     false, s.handled⟩
  if s.flushLevel ≤ r.levelno then DebounceHandler.flush s1
  else DebounceHandler.start s1

/-- `DebounceHandler.__init__(capacity, interval, flushLevel, target)`:
empty buffer, nothing handled, and a timer already started by the
constructor. -/
def DebounceHandler.init (capacity : Nat) (interval : ℚ)
    (flushLevel : Int) : DebounceState :=
  ⟨capacity, interval, flushLevel, [], true, []⟩

/-- A step body that does nothing and returns normally. -/
def noopBody : EvState → EvState × Option PyErr := fun s => (s, none)

/-- Doctest scenario, outer scope entered: `event0.step('Build ...')`
with the `MockIO` clock. -/
def scen1 : EvState × Int × List Nat :=
  EventLogger.stepEnter "Build house" (EventLogger.init mockIOClock)

/-- ... after the first nested step (`lay foundation`) has run. -/
def scen2 : EvState :=
  (EventLogger.step "lay foundation" noopBody scen1.1).1

/-- ... after the second nested step (`frame house`) has run. -/
def scen3 : EvState :=
  (EventLogger.step "frame house" noopBody scen2).1

/-- ... after `event0.elapsed()` has consumed one more clock tick. -/
def scen4 : EvState :=
  match EventLogger.elapsedOp none scen3 with
  | .ok r => r.2
  | .error _ => scen3

/-- The value `event0.eta(pct=25)` returns in the doctest scenario. -/
def scenEta : Except PyErr ℚ :=
  (EventLogger.eta 25 scen4).map Prod.fst

/-- A logger state with one active frame started at 45001 s
(12:30:01), used to instantiate hypotheses at a concrete input. -/
def sOne : EvState := ⟨mockIOClock, 0, 1, [(1, 45001)], []⟩

/-- C2: with at least one active frame and `pct ≠ 0`, `eta(pct)`
returns `t0 + elapsed * (100 / pct)` where `t0` is the outermost
frame's start and `elapsed` the clock reading minus `t0`; and in the
doctest scenario with the deterministic clock (start 12:30:00,
increments 1,2,3,... s) the outer frame starts at 12:30:01 (45001 s),
the nested steps show 9 s elapsed at the second inner begin record,
and `eta(25)` returns exactly 45109 s = 12:31:49. -/
theorem eta_linear_extrapolation :
    (∀ (s : EvState) (pct : ℚ) (n : Nat) (t0 : Int),
      s.stepStack.head? = some (n, t0) → pct ≠ 0 →
      (EventLogger.eta pct s).map Prod.fst =
        .ok ((t0 : ℚ) + ((s.clock s.calls : ℚ) - (t0 : ℚ)) * (100 / pct))) ∧
    scen1.1.stepStack = [(1, 45001)] ∧
    scen3.records.map LogRec.tStep = [0, 2, 3, 9, 5] ∧
    scenEta = .ok 45109 := by
  have hgen : ∀ (s : EvState) (pct : ℚ) (n : Nat) (t0 : Int),
      s.stepStack.head? = some (n, t0) → pct ≠ 0 →
      (EventLogger.eta pct s).map Prod.fst =
        .ok ((t0 : ℚ) + ((s.clock s.calls : ℚ) - (t0 : ℚ)) * (100 / pct)) := by
    rintro ⟨clk, calls, sq, stk, recs⟩ pct n t0 hhead hpct
    cases stk with
    | nil => simp at hhead
    | cons a l =>
      obtain rfl : a = (n, t0) := by simpa using hhead
      have h100 : pct / 100 ≠ 0 := by simp [div_eq_zero_iff, hpct]
      simp [EventLogger.eta, h100, Except.map, one_div, inv_div]
  refine ⟨hgen, rfl, rfl, ?_⟩
  have h := hgen scen4 25 1 45001 rfl (by norm_num)
  have h6 : scen4.clock scen4.calls = 45028 := rfl
  rw [h6] at h
  have hval : ((45001 : Int) : ℚ) +
      (((45028 : Int) : ℚ) - ((45001 : Int) : ℚ)) * (100 / 25) = 45109 := by
    norm_num
  rw [hval] at h
  exact h

/-- C2 witness: the general formula instantiated in the doctest state
`scen4` (one active frame `(1, 45001)`, clock call number 6 returning
45028), with `pct = 25`. -/
theorem eta_linear_extrapolation_witness :
    (EventLogger.eta 25 scen4).map Prod.fst =
      .ok (((45001 : Int) : ℚ) +
        (((45028 : Int) : ℚ) - ((45001 : Int) : ℚ)) * (100 / 25)) :=
  eta_linear_extrapolation.1 scen4 25 1 45001 rfl (by norm_num)

/-- C6: with at least one active frame, `eta(0)` fails with
`ZeroDivisionError` (from `1 / (pct / 100)`), rather than returning a
value. -/
theorem eta_zero_fails :
    ∀ s : EvState, s.stepStack ≠ [] →
      EventLogger.eta 0 s = .error .zeroDivisionError := by
  rintro ⟨clk, calls, sq, stk, recs⟩ hs
  cases stk with
  | nil => exact absurd rfl hs
  | cons a l => simp [EventLogger.eta]

/-- C6 witness: `eta(0)` on a state with one active frame. -/
theorem eta_zero_fails_witness :
    EventLogger.eta 0 sOne = .error .zeroDivisionError :=
  eta_zero_fails sOne (by decide)

/-- C10: with an empty step stack, `elapsed()` with no reference and
`eta(pct)` for every `pct` both fail with `IndexError` from indexing
the empty `_step` list. -/
theorem empty_stack_index_error :
    ∀ (s : EvState) (pct : ℚ), s.stepStack = [] →
      EventLogger.elapsedOp none s = .error .indexError ∧
      EventLogger.eta pct s = .error .indexError := by
  rintro ⟨clk, calls, sq, stk, recs⟩ pct h
  obtain rfl : stk = [] := h
  exact ⟨rfl, rfl⟩

/-- C10 witness: a freshly constructed logger (empty stack). -/
theorem empty_stack_index_error_witness :
    EventLogger.elapsedOp none (EventLogger.init mockIOClock) =
        .error .indexError ∧
      EventLogger.eta 7 (EventLogger.init mockIOClock) =
        .error .indexError :=
  empty_stack_index_error (EventLogger.init mockIOClock) 7 rfl

/-- A step body that raises an application exception. -/
def failBody : EvState → EvState × Option PyErr :=
  fun s => (s, some .appError)

/-- The state after entering a step labelled `work` on a fresh logger
with the `MockIO` clock (the concrete value of
`(EventLogger.stepEnter "work" (EventLogger.init mockIOClock)).1`). -/
def s1c : EvState :=
  ⟨mockIOClock, 1, 1, [(1, 45001)],
   [⟨INFO, "work...", [1], 0, "begin", 45001, none, none⟩]⟩

/-- C1: for a step scope whose body leaves the step stack as it found
it (as every well-nested body does), the exception the body raises
propagates to the caller unchanged, the step frame is popped on every
exit path (the stack is restored whether or not the body raised), and
a raising body makes the scope emit exactly one completion record,
at `ERROR` severity. -/
theorem step_failure_discipline :
    ∀ (s : EvState) (msg : String)
      (body : EvState → EvState × Option PyErr)
      (s1 : EvState) (ck : Int) (ixs : List Nat) (e : PyErr),
      EventLogger.stepEnter msg s = (s1, ck, ixs) →
      (body s1).1.stepStack = s1.stepStack →
      (EventLogger.step msg body s).2 = (body s1).2 ∧
      (EventLogger.step msg body s).1.stepStack = s.stepStack ∧
      ((body s1).2 = some e →
        (EventLogger.step msg body s).1.records =
          (body s1).1.records ++
            [EventLogger.mkEndRec ERROR msg ixs ck
              ((body s1).1.clock (body s1).1.calls - ck)]) := by
  intro s msg body s1 ck ixs e henter hbody
  have h1 : s1 = (EventLogger.stepEnter msg s).1 := by rw [henter]
  have h2 : ck = (EventLogger.stepEnter msg s).2.1 := by rw [henter]
  have h3 : ixs = (EventLogger.stepEnter msg s).2.2 := by rw [henter]
  subst h1 h2 h3
  refine ⟨rfl, ?_, ?_⟩
  · show (body (EventLogger.stepEnter msg s).1).1.stepStack.dropLast =
      s.stepStack
    rw [hbody]
    show (s.stepStack ++ [(s.seq + 1, s.clock s.calls)]).dropLast =
      s.stepStack
    simp
  · intro hsome
    show (EventLogger.stepExit _ _ _ _ _).records = _
    simp [EventLogger.stepExit, EventLogger.step, hsome]

/-- C1 witness: a fresh logger, a step labelled `work`, and a body
that raises: the exception propagates, the stack is empty again, and
the records are the begin record followed by exactly one `ERROR`
completion record. -/
theorem step_failure_discipline_witness :
    (EventLogger.step "work" failBody (EventLogger.init mockIOClock)).2 =
        some PyErr.appError ∧
      (EventLogger.step "work" failBody
        (EventLogger.init mockIOClock)).1.stepStack = [] ∧
      (EventLogger.step "work" failBody
          (EventLogger.init mockIOClock)).1.records =
        [⟨INFO, "work...", [1], 0, "begin", 45001, none, none⟩,
         EventLogger.mkEndRec ERROR "work" [1] 45001 2] := by
  have h := step_failure_discipline (EventLogger.init mockIOClock) "work"
    failBody s1c 45001 [1] PyErr.appError rfl rfl
  exact ⟨h.1, h.2.1, (h.2.2 rfl).trans rfl⟩

/-- The number of enter operations in a trace. -/
def countEnters : List StepOp → Nat
  | [] => 0
  | StepOp.enter _ :: rest => countEnters rest + 1
  | StepOp.leave :: rest => countEnters rest

/-- The sequence numbers assigned along any trace are consecutive
starting just above the instance's current `_seq`. -/
theorem runOps_assigned :
    ∀ (ops : List StepOp) (s : EvState),
      (runOps ops s).2 = List.range' (s.seq + 1) (countEnters ops) := by
  intro ops
  induction ops with
  | nil => intro s; rfl
  | cons op rest ih =>
    intro s
    cases op with
    | enter m =>
      have hseq : (EventLogger.stepEnter m s).1.seq = s.seq + 1 := rfl
      simp [runOps, countEnters, ih, hseq, List.range'_succ]
    | leave =>
      cases h : s.stepStack.getLast? with
      | none => simp [runOps, countEnters, h, ih]
      | some p =>
        have hseq : ∀ ck l, (EventLogger.stepExit INFO "" ck l s).seq =
          s.seq := fun _ _ => rfl
        simp [runOps, countEnters, h, ih, hseq]

/-- C7: along any sequence of enter/exit operations on one logger
instance, the assigned sequence numbers are pairwise strictly
increasing (in assignment order) and contain no duplicate. -/
theorem seq_strictly_increasing :
    ∀ (ops : List StepOp) (s : EvState),
      ((runOps ops s).2).Pairwise (· < ·) ∧ ((runOps ops s).2).Nodup := by
  intro ops s
  rw [runOps_assigned]
  exact ⟨List.pairwise_lt_range' _ _, List.nodup_range' _ _⟩

/-- The drain loop forwards exactly the buffered records, in FIFO
order, after whatever the target already received. -/
theorem DebounceHandler.drain_eq :
    ∀ (buf acc : List LogRec),
      DebounceHandler.drain acc buf = acc ++ buf := by
  intro buf
  induction buf with
  | nil => intro acc; simp [DebounceHandler.drain]
  | cons r rest ih => intro acc; simp [DebounceHandler.drain, ih]

/-- `emit` never changes the configured capacity. -/
theorem DebounceHandler.emit_capacity :
    ∀ (r : LogRec) (s : DebounceState),
      (DebounceHandler.emit r s).capacity = s.capacity := by
  intro r s
  unfold DebounceHandler.emit
  split <;> rfl

/-- One `emit` keeps the buffer within capacity. -/
theorem DebounceHandler.emit_bound :
    ∀ (s : DebounceState) (r : LogRec), 0 < s.capacity →
      s.buffer.length ≤ s.capacity →
      (DebounceHandler.emit r s).buffer.length ≤ s.capacity := by
  intro s r hc hlen
  unfold DebounceHandler.emit
  split
  · simp [DebounceHandler.flush]
  · simp only [DebounceHandler.start, DebounceHandler.enqueue]
    by_cases hf : DebounceHandler.bufFull s
    · rw [if_pos hf]
      simp only [DebounceHandler.bufFull, Bool.and_eq_true,
        decide_eq_true_eq] at hf
      rw [List.length_append, List.length_tail]
      simp only [List.length_singleton]
      omega
    · rw [if_neg hf]
      simp only [DebounceHandler.bufFull, Bool.and_eq_true,
        decide_eq_true_eq, not_and, not_le] at hf
      rw [List.length_append]
      simp only [List.length_singleton]
      have := hf hc
      omega

/-- C3: with positive capacity, the buffer length never exceeds the
capacity — preserved by each `emit`, hence bounded after any sequence
of `emit` calls from an empty buffer — and an `emit` arriving with the
buffer exactly at capacity admits the record by evicting the single
oldest buffered record (FIFO eviction), without any error (`emit` is
total). -/
theorem debounce_buffer_invariant :
    (∀ (s : DebounceState) (r : LogRec), 0 < s.capacity →
      s.buffer.length ≤ s.capacity →
      (DebounceHandler.emit r s).buffer.length ≤ s.capacity) ∧
    (∀ (rs : List LogRec) (s : DebounceState), 0 < s.capacity →
      s.buffer = [] →
      (rs.foldl (fun t r => DebounceHandler.emit r t) s).buffer.length ≤
        s.capacity) ∧
    (∀ (s : DebounceState) (r : LogRec),
      s.buffer.length = s.capacity → 0 < s.capacity →
      DebounceHandler.enqueue r s = s.buffer.tail ++ [r]) := by
  refine ⟨DebounceHandler.emit_bound, ?_, ?_⟩
  · have main : ∀ (rs : List LogRec) (s : DebounceState), 0 < s.capacity →
        s.buffer.length ≤ s.capacity →
        (rs.foldl (fun t r => DebounceHandler.emit r t) s).buffer.length ≤
          s.capacity := by
      intro rs
      induction rs with
      | nil => intro s _ h; simpa using h
      | cons r rest ih =>
        intro s hc hlen
        have h1 := DebounceHandler.emit_bound s r hc hlen
        have h2 := DebounceHandler.emit_capacity r s
        have := ih (DebounceHandler.emit r s) (h2 ▸ hc) (h2 ▸ h1)
        simpa [h2] using this
    intro rs s hc hbuf
    exact main rs s hc (by simp [hbuf])
  · intro s r hlen hc
    have hf : DebounceHandler.bufFull s = true := by
      simp only [DebounceHandler.bufFull, Bool.and_eq_true,
        decide_eq_true_eq]
      omega
    simp [DebounceHandler.enqueue, hf]

/-- Sample records at informational and warning severity (from the
integration test traffic). -/
def recInfo : LogRec := ⟨INFO, "quick one", [], 0, "", 0, none, none⟩

/-- A second informational record. -/
def recInfo2 : LogRec := ⟨INFO, "quick two", [], 0, "", 0, none, none⟩

/-- A warning record, at the default flush threshold. -/
def recWarn : LogRec := ⟨WARN, "slow one", [], 0, "", 0, none, none⟩

/-- A sink with capacity 2 whose buffer is exactly at capacity and
whose timer is pending. -/
def dbFull : DebounceState := ⟨2, 1, WARN, [recInfo, recInfo2], true, []⟩

/-- C3 witness: on the at-capacity sink, one more `emit` keeps the
bound, a burst from the constructor state stays within capacity, and
admission evicts exactly the oldest record. -/
theorem debounce_buffer_invariant_witness :
    (DebounceHandler.emit recInfo dbFull).buffer.length ≤ 2 ∧
    ([recInfo, recInfo2, recWarn].foldl
      (fun t r => DebounceHandler.emit r t)
      (DebounceHandler.init 2 1 WARN)).buffer.length ≤ 2 ∧
    DebounceHandler.enqueue recInfo dbFull = [recInfo2, recInfo] := by
  refine ⟨?_, ?_, ?_⟩
  · exact debounce_buffer_invariant.1 dbFull recInfo (by decide) (by decide)
  · exact debounce_buffer_invariant.2.1 [recInfo, recInfo2, recWarn]
      (DebounceHandler.init 2 1 WARN) (by decide) rfl
  · exact (debounce_buffer_invariant.2.2 dbFull recInfo rfl
      (by decide)).trans rfl

/-- C4: a record at or above the flush threshold makes `emit` cancel
any pending timer and flush synchronously within that call — the
target receives the buffered records including the new one, in FIFO
order — and no timer is left scheduled; a record below the threshold
leaves the admitted buffer in place, forwards nothing, and schedules a
fresh one-shot timer instead. -/
theorem emit_severity_flush :
    ∀ (s : DebounceState) (r : LogRec),
      (s.flushLevel ≤ r.levelno →
        (DebounceHandler.emit r s).timerActive = false ∧
        (DebounceHandler.emit r s).buffer = [] ∧
        (DebounceHandler.emit r s).handled =
          s.handled ++ DebounceHandler.enqueue r s) ∧
      (r.levelno < s.flushLevel →
        (DebounceHandler.emit r s).timerActive = true ∧
        (DebounceHandler.emit r s).buffer = DebounceHandler.enqueue r s ∧
        (DebounceHandler.emit r s).handled = s.handled) := by
  intro s r
  constructor
  · intro h
    unfold DebounceHandler.emit
    rw [if_pos h]
    exact ⟨rfl, rfl, DebounceHandler.drain_eq _ _⟩
  · intro h
    unfold DebounceHandler.emit
    rw [if_neg (not_le.mpr h)]
    exact ⟨rfl, rfl, rfl⟩

/-- C4 witness: on the at-capacity sink with a pending timer, a WARN
record flushes both surviving records synchronously and leaves no
timer, while an INFO record only buffers and schedules a timer. -/
theorem emit_severity_flush_witness :
    ((DebounceHandler.emit recWarn dbFull).timerActive = false ∧
      (DebounceHandler.emit recWarn dbFull).buffer = [] ∧
      (DebounceHandler.emit recWarn dbFull).handled =
        dbFull.handled ++ DebounceHandler.enqueue recWarn dbFull) ∧
    ((DebounceHandler.emit recInfo dbFull).timerActive = true ∧
      (DebounceHandler.emit recInfo dbFull).buffer =
        DebounceHandler.enqueue recInfo dbFull ∧
      (DebounceHandler.emit recInfo dbFull).handled = dbFull.handled) :=
  ⟨(emit_severity_flush dbFull recWarn).1 (by decide),
   (emit_severity_flush dbFull recInfo).2 (by decide)⟩

/-- C9: `flush` on an empty buffer is a no-op (the state is unchanged,
nothing is forwarded, and the model is total so nothing is raised);
consequently a second `stop` immediately after a first changes nothing
and forwards no records. -/
theorem flush_empty_idempotent_stop :
    ∀ s : DebounceState,
      (s.buffer = [] → DebounceHandler.flush s = s) ∧
      DebounceHandler.stop (DebounceHandler.stop s) =
        DebounceHandler.stop s ∧
      (DebounceHandler.stop (DebounceHandler.stop s)).handled =
        (DebounceHandler.stop s).handled := by
  rintro ⟨cap, intv, fl, buf, tmr, hnd⟩
  refine ⟨?_, rfl, rfl⟩
  rintro rfl
  rfl

/-- C9 witness: flushing a freshly constructed (empty-buffer) sink is
the identity, and a double stop of the at-capacity sink equals a
single stop. -/
theorem flush_empty_idempotent_stop_witness :
    DebounceHandler.flush (DebounceHandler.init 2 1 WARN) =
        DebounceHandler.init 2 1 WARN ∧
      DebounceHandler.stop (DebounceHandler.stop dbFull) =
        DebounceHandler.stop dbFull :=
  ⟨(flush_empty_idempotent_stop (DebounceHandler.init 2 1 WARN)).1 rfl,
   (flush_empty_idempotent_stop dbFull).2.1⟩

/-- The sink right after `stop()`: timer cancelled, buffer flushed. -/
def dbStopped : DebounceState :=
  DebounceHandler.stop (DebounceHandler.init 2 1 WARN)

/-- C5 counterexample: after `stop()`, emitting a below-threshold
record both buffers it and starts a fresh timer — so `emit` after
`stop` neither refrains from scheduling timers nor is a no-op/error,
against the claim. -/
theorem stop_not_inert_cex :
    (DebounceHandler.emit recInfo dbStopped).timerActive = true ∧
    (DebounceHandler.emit recInfo dbStopped).buffer = [recInfo] := by
  exact ⟨rfl, rfl⟩

/-- C5 amended: `stop()` cancels the pending timer and flushes, but
does not make the sink inert: any subsequent `emit` of a record below
the flush threshold buffers the record and schedules a fresh timer. -/
theorem emit_after_stop_restarts_timer :
    ∀ (s : DebounceState) (r : LogRec), r.levelno < s.flushLevel →
      (DebounceHandler.emit r (DebounceHandler.stop s)).timerActive =
        true ∧
      (DebounceHandler.emit r (DebounceHandler.stop s)).buffer = [r] := by
  intro s r h
  have hfl : (DebounceHandler.stop s).flushLevel = s.flushLevel := rfl
  unfold DebounceHandler.emit
  rw [hfl, if_neg (not_le.mpr h)]
  refine ⟨rfl, ?_⟩
  show DebounceHandler.enqueue r (DebounceHandler.stop s) = [r]
  simp [DebounceHandler.enqueue, DebounceHandler.bufFull,
    DebounceHandler.stop, DebounceHandler.flush]

/-- C5 amended witness: a second below-threshold record emitted on the
stopped at-capacity sink is buffered and a fresh timer is scheduled. -/
theorem emit_after_stop_restarts_timer_witness :
    (DebounceHandler.emit recInfo2
        (DebounceHandler.stop dbFull)).timerActive = true ∧
      (DebounceHandler.emit recInfo2
        (DebounceHandler.stop dbFull)).buffer = [recInfo2] :=
  emit_after_stop_restarts_timer dbFull recInfo2 (by decide)

/-- The filter's verdict depends only on the skip list and the
rendered message: a record is rejected exactly when its message starts
with one of the configured skips. -/
theorem TextFilter.filter_eq_false_iff :
    ∀ (skips : List String) (r : LogRec),
      TextFilter.filter skips r = false ↔
        ∃ p ∈ skips, pyStartsWith r.msg p = true := by
  intro skips r
  induction skips with
  | nil => simp [TextFilter.filter]
  | cons q rest ih =>
    by_cases hq : pyStartsWith r.msg q
    · simp [TextFilter.filter, hq]
    · simp [TextFilter.filter, hq, ih]

/-- The filter reads nothing of the record but its rendered
message — in particular not its severity. -/
theorem TextFilter.filter_msg_only :
    ∀ (skips : List String) (r r2 : LogRec), r2.msg = r.msg →
      TextFilter.filter skips r2 = TextFilter.filter skips r := by
  intro skips r r2 h
  induction skips with
  | nil => rfl
  | cons q rest ih => simp [TextFilter.filter, h, ih]

/-- C8: the filter rejects a record exactly when its rendered message
starts with one of the configured skips; two records with the same
message get the same verdict whatever their severities; and a rejected
record is never forwarded to the downstream sink. -/
theorem filter_skip_suppression :
    ∀ (skips : List String) (r : LogRec),
      (TextFilter.filter skips r = false ↔
        ∃ p ∈ skips, pyStartsWith r.msg p = true) ∧
      (∀ r2 : LogRec, r2.msg = r.msg →
        TextFilter.filter skips r2 = TextFilter.filter skips r) ∧
      (∀ sink : List LogRec, TextFilter.filter skips r = false →
        handleFiltered skips r sink = sink) := by
  intro skips r
  refine ⟨TextFilter.filter_eq_false_iff skips r,
    fun r2 h => TextFilter.filter_msg_only skips r r2 h, ?_⟩
  intro sink h
  simp [handleFiltered, h]

/-- A record with the same message as `recInfo` but `WARN` severity. -/
def recWarnQuick : LogRec := ⟨WARN, "quick one", [], 0, "", 0, none, none⟩

/-- C8 witness: with skip list `["quick"]`, the `WARN` record gets the
same (rejecting) verdict as the `INFO` record with the same message,
and the rejected record never reaches the sink. -/
theorem filter_skip_suppression_witness :
    TextFilter.filter ["quick"] recWarnQuick =
        TextFilter.filter ["quick"] recInfo ∧
      handleFiltered ["quick"] recInfo [recWarn] = [recWarn] ∧
      TextFilter.filter ["quick"] recInfo = false :=
  ⟨(filter_skip_suppression ["quick"] recInfo).2.1 recWarnQuick rfl,
   (filter_skip_suppression ["quick"] recInfo).2.2 [recWarn] (by decide),
   by decide⟩
